import Mathlib

/-!
Shallow embedding of the botforge-services ticketing UI.

Source files embedded:
* `src/unnamed/part_000` — `CreateTicketDialog`: `fetchProducts`, `handleSubmit`,
  the product `Select`'s `onValueChange` handler, and the toast/form state they touch.
* `src/src/pages/Tickets.tsx` — `Tickets`: `fetchTickets`, `getStatusBadge`,
  `getCategoryBadge`, the open/closed counters and the rendered ticket list.

Modelling conventions: React `useState` setters become explicit before/after state;
backend calls (`supabase...`) become an environment value of type `Except String _`
recording the call's outcome; `toast(...)` invocations are collected in a list;
`crypto.randomUUID()` and `new Date().toISOString()` are environment-supplied
strings; JS string falsiness (`!s`, `s || d`) is the test against `""`.
-/

namespace BotforgeServices

/-- The authenticated actor from `useAuth()`; `email` and `role` may be absent
(the JS reads them with `||` defaults). -/
structure AuthUser where
  username : String
  email : Option String
  role : Option String
deriving Repr, DecidableEq

/-- JS `String.prototype.trim`: strip leading and trailing whitespace. Written
over the character list so that it evaluates inside the kernel. -/
def jsTrim (s : String) : String :=
  ⟨((s.data.dropWhile Char.isWhitespace).reverse.dropWhile Char.isWhitespace).reverse⟩

/-- JS `s || d` on a possibly-absent string: absent or empty is falsy. -/
def jsStringOr (s : Option String) (d : String) : String :=
  match s with
  | some v => if v = "" then d else v
  | none => d

/-- The `ticketData` object built in `handleSubmit` (part_000 lines 65-75). -/
structure TicketData where
  id : String
  user_id : String
  title : String
  description : String
  category : String
  product_id : Option String
  status : String
  created_at : String
  updated_at : String
deriving Repr, DecidableEq

/-- The `userData` object built in `handleSubmit` (part_000 lines 93-98). -/
structure UserData where
  id : String
  username : String
  email : String
  role : String
deriving Repr, DecidableEq

/-- One backend write issued by `handleSubmit`. -/
inductive NetworkCall
  | insertTicket (data : TicketData)
  | upsertUser (data : UserData)
deriving Repr, DecidableEq

def NetworkCall.isInsert : NetworkCall → Bool
  | .insertTicket _ => true
  | .upsertUser _ => false

def NetworkCall.isUpsert : NetworkCall → Bool
  | .insertTicket _ => false
  | .upsertUser _ => true

/-- The ticket records among a list of calls, in call order. -/
def insertedTickets (calls : List NetworkCall) : List TicketData :=
  calls.filterMap fun c =>
    match c with
    | .insertTicket t => some t
    | .upsertUser _ => none

/-- One `toast({title, description, variant})` invocation;
`destructive` is `variant: "destructive"`. -/
structure Toast where
  title : String
  description : String
  destructive : Bool
deriving Repr, DecidableEq

/-- The dialog's four form fields (`useState` at part_000 lines 14-17). -/
structure FormState where
  title : String
  description : String
  category : String
  productId : String
deriving Repr, DecidableEq

def initialFormState : FormState := ⟨"", "", "", ""⟩

/-- Environment of one `handleSubmit` run: the authenticated user, the two
`crypto.randomUUID()` draws, `new Date().toISOString()` at submission time, and
the outcomes the backend returns for the ticket insert and the user upsert. -/
structure SubmitEnv where
  user : Option AuthUser
  ticketId : String
  userId : String
  now : String
  insertResult : Except String Unit
  upsertResult : Except String Unit
deriving Repr

/-- Everything observable from one `handleSubmit` run: backend calls issued (in
order), toasts shown, the form state afterwards, the arguments of `onOpenChange`
calls, and how many times `onTicketCreated` ran. -/
structure SubmitResult where
  calls : List NetworkCall
  toasts : List Toast
  form : FormState
  openChangeCalls : List Bool
  refreshCalls : Nat
deriving Repr, DecidableEq

def validationToast : Toast :=
  ⟨"Error", "Please fill in all required fields.", true⟩

def authToast : Toast :=
  ⟨"Error", "You must be logged in to create a ticket.", true⟩

def successToast : Toast :=
  ⟨"Success", "Your ticket has been created successfully.", false⟩

/-- `Failed to create ticket: ${error.message || 'Please try again.'}`. -/
def insertFailToast (msg : String) : Toast :=
  ⟨"Error", "Failed to create ticket: " ++ jsStringOr (some msg) "Please try again.", true⟩

/-- `ticketData` (part_000 lines 65-75): trimmed title/description, `productId
|| null`, status `'open'`, both timestamps the submission instant. -/
def mkTicketData (form : FormState) (env : SubmitEnv) : TicketData :=
  { id := env.ticketId
    user_id := env.userId
    title := jsTrim form.title
    description := jsTrim form.description
    category := form.category
    product_id := if form.productId = "" then none else some form.productId
    status := "open"
    created_at := env.now
    updated_at := env.now }

/-- `userData` (part_000 lines 93-98). -/
def mkUserData (env : SubmitEnv) (user : AuthUser) : UserData :=
  { id := env.userId
    username := user.username
    email := jsStringOr user.email (user.username ++ "@local.app")
    role := jsStringOr user.role "customer" }

/-- `handleSubmit` (part_000 lines 42-130). Validation guards first, then the
ticket insert; on insert error the catch shows the failure toast and nothing
else happens; on success the user upsert is issued with its result discarded,
the success toast shows, the form resets, `onOpenChange(false)` and
`onTicketCreated()` run. -/
def handleSubmit (form : FormState) (env : SubmitEnv) : SubmitResult :=
  if jsTrim form.title = "" ∨ jsTrim form.description = "" ∨ form.category = "" then
    { calls := [], toasts := [validationToast], form := form
      openChangeCalls := [], refreshCalls := 0 }
  else
    match env.user with
    | none =>
      { calls := [], toasts := [authToast], form := form
        openChangeCalls := [], refreshCalls := 0 }
    | some user =>
      let ticketData := mkTicketData form env
      match env.insertResult with
      | .error msg =>
        { calls := [NetworkCall.insertTicket ticketData]
          toasts := [insertFailToast msg]
          form := form
          openChangeCalls := []
          refreshCalls := 0 }
      | .ok _ =>
        let userData := mkUserData env user
        { calls := [NetworkCall.insertTicket ticketData, NetworkCall.upsertUser userData]
          toasts := [successToast]
          form := initialFormState
          openChangeCalls := [false]
          refreshCalls := 1 }

/-- The product `Select`'s handler (part_000 line 175):
`setProductId(value === 'none' ? '' : value)`. -/
def onProductValueChange (value : String) : String :=
  if value = "none" then "" else value

/-- A row of the `products` table as selected (`id, name`). -/
structure Product where
  id : String
  name : String
deriving Repr, DecidableEq

/-- `fetchProducts` (part_000 lines 27-40): on success `setProducts(data || [])`;
on error only `console.error`, so the state keeps its previous value and no
toast is shown. Returns (products state afterwards, toasts shown). -/
def fetchProducts (prevProducts : List Product)
    (result : Except String (Option (List Product))) : List Product × List Toast :=
  match result with
  | .ok data => (data.getD [], [])
  | .error _ => (prevProducts, [])

/-- A row of the `tickets` fetch in `Tickets.tsx`: `*` joined with
`products(name)` and `ticket_replies(count)` (the fields the view reads). -/
structure TicketRow where
  id : String
  title : String
  description : String
  category : String
  status : String
  created_at : String
  productName : Option String
  replyCount : Nat
deriving Repr, DecidableEq

/-- `useState` of the `Tickets` page relevant here (Tickets.tsx lines 15, 18). -/
structure TicketsState where
  tickets : List TicketRow
  loading : Bool
deriving Repr, DecidableEq

/-- Initial page state: `useState([])`, `useState(true)`. -/
def initialTicketsState : TicketsState := ⟨[], true⟩

def fetchTicketsFailToast : Toast := ⟨"Error", "Failed to load tickets.", true⟩

/-- `fetchTickets` (Tickets.tsx lines 26-49): on success `setTickets(data || [])`;
on error a toast, `setTickets` not called so the list keeps its previous value;
`finally` clears `loading`. Returns (page state afterwards, toasts shown). -/
def fetchTickets (prev : TicketsState)
    (result : Except String (Option (List TicketRow))) : TicketsState × List Toast :=
  match result with
  | .ok data => (⟨data.getD [], false⟩, [])
  | .error _ => (⟨prev.tickets, false⟩, [fetchTicketsFailToast])

/-- The shape of the ordered fetch issued by `fetchTickets`:
`.from('tickets')...order('created_at', { ascending: false })`. -/
structure TicketsQuery where
  table : String
  orderBy : String
  ascending : Bool
deriving Repr, DecidableEq

def fetchTicketsQuery : TicketsQuery :=
  { table := "tickets", orderBy := "created_at", ascending := false }

/-- The `Badge` element variants used by the two badge helpers. -/
inductive BadgeVariant
  | default
  | destructive
  | outline
deriving Repr, DecidableEq

/-- A JS value as it can come out of a bracket lookup on a plain object
literal: `undefined` (no own or inherited property), an own string property, or
a member inherited from `Object.prototype` (a function, or the `__proto__`
object — never a string). -/
inductive JsValue
  | undefined
  | str (s : String)
  | inheritedMember (name : String)
deriving Repr, DecidableEq

/-- JS truthiness of such a value: `undefined` is falsy, a string is falsy iff
empty, inherited `Object.prototype` members (functions / the prototype object)
are truthy. -/
def JsValue.truthy : JsValue → Bool
  | .undefined => false
  | .str s => s ≠ ""
  | .inheritedMember _ => true

/-- JS `a || b` on such values. -/
def jsOrValue (v : JsValue) (d : JsValue) : JsValue :=
  if v.truthy then v else d

/-- The property names every plain object literal inherits from
`Object.prototype` (ECMA-262, Annex B included): bracket lookup with one of
these on an object without such an own key yields the inherited member. -/
def objectPrototypeKeys : List String :=
  ["constructor", "hasOwnProperty", "isPrototypeOf", "propertyIsEnumerable",
   "toLocaleString", "toString", "valueOf", "__proto__",
   "__defineGetter__", "__defineSetter__", "__lookupGetter__", "__lookupSetter__"]

/-- A rendered `Badge`: its variant, explicit `className` value (if the
attribute is present), and text. -/
structure BadgeView where
  variant : BadgeVariant
  className : Option JsValue
  text : String
deriving Repr, DecidableEq

/-- `getStatusBadge` (Tickets.tsx lines 51-60): a `switch` with strict string
equality, so only exactly `'open'`/`'closed'` hit the first two cases. -/
def getStatusBadge (status : String) : BadgeView :=
  if status = "open" then ⟨.default, some (.str "bg-green-500 text-white"), "Open"⟩
  else if status = "closed" then ⟨.destructive, none, "Closed"⟩
  else ⟨.outline, none, status⟩

/-- The bracket lookup `colors[category]` on the object literal in
`getCategoryBadge` (Tickets.tsx lines 63-67): the three own keys first, then
the `Object.prototype` chain, else `undefined`. -/
def categoryColors (category : String) : JsValue :=
  if category = "Account" then .str "bg-blue-500 text-white"
  else if category = "Orders" then .str "bg-purple-500 text-white"
  else if category = "Other" then .str "bg-orange-500 text-white"
  else if category ∈ objectPrototypeKeys then .inheritedMember category
  else .undefined

/-- `getCategoryBadge` (Tickets.tsx lines 62-69):
`colors[category] || 'bg-gray-500 text-white'`. -/
def getCategoryBadge (category : String) : BadgeView :=
  ⟨.default, some (jsOrValue (categoryColors category) (.str "bg-gray-500 text-white")),
    category⟩

/-- `tickets.filter(t => t.status === 'open').length` (Tickets.tsx line 95). -/
def openCount (tickets : List TicketRow) : Nat :=
  (tickets.filter fun t => t.status = "open").length

/-- `tickets.filter(t => t.status === 'closed').length` (Tickets.tsx line 99). -/
def closedCount (tickets : List TicketRow) : Nat :=
  (tickets.filter fun t => t.status = "closed").length

/-- One ticket `Card` as rendered by the list (Tickets.tsx lines 121-156). -/
structure TicketCard where
  id : String
  title : String
  categoryBadge : BadgeView
  statusBadge : BadgeView
  description : String
  productName : Option String
  replyCount : Nat
  created_at : String
deriving Repr, DecidableEq

def renderTicketCard (t : TicketRow) : TicketCard :=
  { id := t.id
    title := t.title
    categoryBadge := getCategoryBadge t.category
    statusBadge := getStatusBadge t.status
    description := t.description
    productName := t.productName
    replyCount := t.replyCount
    created_at := t.created_at }

/-- `tickets.map(ticket => <Card .../>)`: one card per row, in snapshot order. -/
def renderTicketList (tickets : List TicketRow) : List TicketCard :=
  tickets.map renderTicketCard

/-! ### Sample concrete values used by witnesses -/

def sampleUser : AuthUser := ⟨"alice", some "alice@example.com", some "customer"⟩

def sampleEnvOk : SubmitEnv :=
  ⟨some sampleUser, "tid-1", "uid-1", "2024-05-01T10:00:00.000Z", Except.ok (), Except.ok ()⟩

/-! ### Claims -/

/-- C1: with an authenticated actor, non-empty trimmed title and description and
a set category, a successful submission issues exactly one ticket insert whose
record has status `"open"` and both timestamps equal to the submission time,
resets all four form fields to empty, calls `onOpenChange(false)` once, and
invokes the refresh callback exactly once. -/
theorem handleSubmit_success_contract (form : FormState) (env : SubmitEnv) (u : AuthUser)
    (htitle : jsTrim form.title ≠ "") (hdesc : jsTrim form.description ≠ "")
    (hcat : form.category ≠ "") (huser : env.user = some u)
    (hok : env.insertResult = Except.ok ()) :
    ∃ t : TicketData,
      insertedTickets (handleSubmit form env).calls = [t] ∧
      t.status = "open" ∧ t.created_at = env.now ∧ t.updated_at = env.now ∧
      (handleSubmit form env).form.title = "" ∧
      (handleSubmit form env).form.description = "" ∧
      (handleSubmit form env).form.category = "" ∧
      (handleSubmit form env).form.productId = "" ∧
      (handleSubmit form env).openChangeCalls = [false] ∧
      (handleSubmit form env).refreshCalls = 1 := by
  refine ⟨mkTicketData form env, ?_⟩
  unfold handleSubmit
  rw [if_neg (by tauto), huser, hok]
  refine ⟨by simp [insertedTickets], rfl, rfl, rfl, rfl, rfl, rfl, rfl, rfl, rfl⟩

def c1Form : FormState := ⟨"Printer on fire", "It is smoking", "Other", "p1"⟩

/-- Witness for C1 at a concrete valid submission. -/
theorem handleSubmit_success_contract_witness :
    ∃ t : TicketData,
      insertedTickets (handleSubmit c1Form sampleEnvOk).calls = [t] ∧
      t.status = "open" ∧ t.created_at = sampleEnvOk.now ∧ t.updated_at = sampleEnvOk.now ∧
      (handleSubmit c1Form sampleEnvOk).form.title = "" ∧
      (handleSubmit c1Form sampleEnvOk).form.description = "" ∧
      (handleSubmit c1Form sampleEnvOk).form.category = "" ∧
      (handleSubmit c1Form sampleEnvOk).form.productId = "" ∧
      (handleSubmit c1Form sampleEnvOk).openChangeCalls = [false] ∧
      (handleSubmit c1Form sampleEnvOk).refreshCalls = 1 :=
  handleSubmit_success_contract c1Form sampleEnvOk sampleUser
    (by decide) (by decide) (by decide) rfl rfl

/-- C2: when title, description or category is empty after trimming/unset, or no
authenticated actor is present, `handleSubmit` issues no backend call at all and
shows exactly one destructive error toast. -/
theorem handleSubmit_rejected_no_network (form : FormState) (env : SubmitEnv)
    (h : jsTrim form.title = "" ∨ jsTrim form.description = "" ∨ form.category = "" ∨
      env.user = none) :
    (handleSubmit form env).calls = [] ∧
    ∃ t, (handleSubmit form env).toasts = [t] ∧ t.destructive = true := by
  unfold handleSubmit
  by_cases hv : jsTrim form.title = "" ∨ jsTrim form.description = "" ∨ form.category = ""
  · rw [if_pos hv]
    exact ⟨rfl, validationToast, rfl, rfl⟩
  · have huser : env.user = none := by tauto
    rw [if_neg hv, huser]
    exact ⟨rfl, authToast, rfl, rfl⟩

def c2Form : FormState := ⟨"   ", "still a description", "Account", ""⟩

/-- Witness for C2 at a submission whose title trims to empty. -/
theorem handleSubmit_rejected_no_network_witness :
    (handleSubmit c2Form sampleEnvOk).calls = [] ∧
    ∃ t, (handleSubmit c2Form sampleEnvOk).toasts = [t] ∧ t.destructive = true :=
  handleSubmit_rejected_no_network c2Form sampleEnvOk (Or.inl (by decide))

/-- C3: when the ticket insert fails, no user upsert is issued, the underlying
error message is surfaced in the toast, every form field keeps its
pre-submission value, and `onOpenChange` is never called. -/
theorem handleSubmit_insert_failure (form : FormState) (env : SubmitEnv) (u : AuthUser)
    (msg : String)
    (htitle : jsTrim form.title ≠ "") (hdesc : jsTrim form.description ≠ "")
    (hcat : form.category ≠ "") (huser : env.user = some u)
    (herr : env.insertResult = Except.error msg) (hmsg : msg ≠ "") :
    (∀ c ∈ (handleSubmit form env).calls, c.isUpsert = false) ∧
    (handleSubmit form env).toasts =
      [⟨"Error", "Failed to create ticket: " ++ msg, true⟩] ∧
    (handleSubmit form env).form = form ∧
    (handleSubmit form env).openChangeCalls = [] := by
  unfold handleSubmit
  rw [if_neg (by tauto), huser, herr]
  refine ⟨?_, ?_, rfl, rfl⟩
  · simp [NetworkCall.isUpsert]
  · simp [insertFailToast, jsStringOr, hmsg]

def c3Form : FormState := ⟨"Broken checkout", "Cart empties itself", "Orders", ""⟩

def c3Env : SubmitEnv :=
  ⟨some sampleUser, "tid-3", "uid-3", "2024-05-02T09:00:00.000Z",
    Except.error "row violates policy", Except.ok ()⟩

/-- Witness for C3 at a concrete failing insert. -/
theorem handleSubmit_insert_failure_witness :
    (∀ c ∈ (handleSubmit c3Form c3Env).calls, c.isUpsert = false) ∧
    (handleSubmit c3Form c3Env).toasts =
      [⟨"Error", "Failed to create ticket: " ++ "row violates policy", true⟩] ∧
    (handleSubmit c3Form c3Env).form = c3Form ∧
    (handleSubmit c3Form c3Env).openChangeCalls = [] :=
  handleSubmit_insert_failure c3Form c3Env sampleUser "row violates policy"
    (by decide) (by decide) (by decide) rfl rfl (by decide)

/-- C5: when the ticket insert succeeds, the user upsert is issued but its
failure is silently ignored: the only toast is the success toast (no destructive
toast), the form is still reset, and the refresh callback still runs once. -/
theorem handleSubmit_upsert_failure_ignored (form : FormState) (env : SubmitEnv) (u : AuthUser)
    (msg : String)
    (htitle : jsTrim form.title ≠ "") (hdesc : jsTrim form.description ≠ "")
    (hcat : form.category ≠ "") (huser : env.user = some u)
    (hok : env.insertResult = Except.ok ())
    (hup : env.upsertResult = Except.error msg) :
    (∃ ud, NetworkCall.upsertUser ud ∈ (handleSubmit form env).calls) ∧
    (handleSubmit form env).toasts = [successToast] ∧
    (∀ t ∈ (handleSubmit form env).toasts, t.destructive = false) ∧
    (handleSubmit form env).form = initialFormState ∧
    (handleSubmit form env).refreshCalls = 1 := by
  unfold handleSubmit
  rw [if_neg (by tauto), huser, hok]
  refine ⟨⟨mkUserData env u, by simp⟩, rfl, ?_, rfl, rfl⟩
  simp [successToast]

def c5Env : SubmitEnv :=
  ⟨some sampleUser, "tid-5", "uid-5", "2024-05-03T12:00:00.000Z",
    Except.ok (), Except.error "duplicate key"⟩

/-- Witness for C5 at a concrete failing upsert after a successful insert. -/
theorem handleSubmit_upsert_failure_ignored_witness :
    (∃ ud, NetworkCall.upsertUser ud ∈ (handleSubmit c1Form c5Env).calls) ∧
    (handleSubmit c1Form c5Env).toasts = [successToast] ∧
    (∀ t ∈ (handleSubmit c1Form c5Env).toasts, t.destructive = false) ∧
    (handleSubmit c1Form c5Env).form = initialFormState ∧
    (handleSubmit c1Form c5Env).refreshCalls = 1 :=
  handleSubmit_upsert_failure_ignored c1Form c5Env sampleUser "duplicate key"
    (by decide) (by decide) (by decide) rfl rfl rfl

def c4PrevTicket : TicketRow :=
  ⟨"t1", "Old ticket", "Still here after the failed re-fetch", "Other", "open",
    "2024-01-01T00:00:00.000Z", none, 0⟩

/-- C4 counterexample: a fetch failure does not leave the rendered list empty in
general — re-fetching after a previous successful fetch of one ticket fails, yet
the rendered list still shows that ticket, because `fetchTickets` never calls
`setTickets` on the error path. -/
theorem fetchTickets_failure_list_not_empty :
    renderTicketList (fetchTickets ⟨[c4PrevTicket], false⟩
      (Except.error "network down")).1.tickets ≠ [] := by
  simp [fetchTickets, renderTicketList]

/-- C4 (amended): every failed ticket fetch surfaces the failure toast and
leaves the ticket list unchanged; in particular a failure of the initial fetch
leaves the list (and its rendering) empty, since the list starts empty. -/
theorem fetchTickets_failure_behavior (prev : TicketsState) (e : String) :
    (fetchTickets prev (Except.error e)).2 = [fetchTicketsFailToast] ∧
    (fetchTickets prev (Except.error e)).1.tickets = prev.tickets ∧
    (fetchTickets initialTicketsState (Except.error e)).1.tickets = [] ∧
    renderTicketList (fetchTickets initialTicketsState (Except.error e)).1.tickets = [] := by
  simp [fetchTickets, initialTicketsState, renderTicketList]

/-- C6: the `"none"` product sentinel is translated to the empty selection, and
a submission with no product selected persists a ticket whose `product_id` is
null (never the literal `"none"`), with the form's category and status
`"open"`. -/
theorem product_none_sentinel (form : FormState) (env : SubmitEnv) (u : AuthUser)
    (htitle : jsTrim form.title ≠ "") (hdesc : jsTrim form.description ≠ "")
    (hcat : form.category ≠ "") (huser : env.user = some u)
    (hok : env.insertResult = Except.ok ())
    (hnoprod : form.productId = onProductValueChange "none" ∨ form.productId = "") :
    onProductValueChange "none" = "" ∧
    ∀ t ∈ insertedTickets (handleSubmit form env).calls,
      t.product_id = none ∧ t.product_id ≠ some "none" ∧
      t.category = form.category ∧ t.status = "open" := by
  have hprod : form.productId = "" := by
    rcases hnoprod with h | h <;> simpa [onProductValueChange] using h
  refine ⟨rfl, ?_⟩
  unfold handleSubmit
  rw [if_neg (by tauto), huser, hok]
  simp [insertedTickets, mkTicketData, hprod]

def c6Form : FormState := ⟨"Late delivery", "Order has not arrived", "Orders", ""⟩

/-- Witness for C6 at the spec's worked example: category "Orders", no
product. -/
theorem product_none_sentinel_witness :
    onProductValueChange "none" = "" ∧
    ∀ t ∈ insertedTickets (handleSubmit c6Form sampleEnvOk).calls,
      t.product_id = none ∧ t.product_id ≠ some "none" ∧
      t.category = c6Form.category ∧ t.status = "open" :=
  product_none_sentinel c6Form sampleEnvOk sampleUser
    (by decide) (by decide) (by decide) rfl rfl (Or.inr rfl)

/-- C7: for every fetched snapshot, the displayed open counter equals the number
of tickets whose status is `"open"` and the closed counter the number whose
status is `"closed"`; both are zero on the empty snapshot. -/
theorem counters_match_snapshot (tickets : List TicketRow) :
    openCount tickets = tickets.countP (fun t => t.status = "open") ∧
    closedCount tickets = tickets.countP (fun t => t.status = "closed") ∧
    openCount [] = 0 ∧ closedCount [] = 0 := by
  refine ⟨?_, ?_, rfl, rfl⟩ <;> simp [openCount, closedCount, List.countP_eq_length_filter]

/-- C8: the fetch orders by `created_at` descending, and rendering preserves the
snapshot's order (the cards carry the rows' timestamps in the same positions),
so any snapshot sorted newest-first is rendered newest-first. -/
theorem tickets_rendered_newest_first (tickets : List TicketRow)
    (r : String → String → Prop)
    (hsorted : tickets.Pairwise fun a b => r a.created_at b.created_at) :
    fetchTicketsQuery.orderBy = "created_at" ∧
    fetchTicketsQuery.ascending = false ∧
    (renderTicketList tickets).map TicketCard.created_at =
      tickets.map TicketRow.created_at ∧
    (renderTicketList tickets).Pairwise fun a b => r a.created_at b.created_at := by
  refine ⟨rfl, rfl, ?_, ?_⟩
  · simp [renderTicketList, renderTicketCard, List.map_map, Function.comp]
  · exact List.Pairwise.map renderTicketCard (fun _ _ h => h) hsorted

def c8Newer : TicketRow :=
  ⟨"t9", "Newer", "Second ticket", "Other", "open", "2024-02-01T00:00:00.000Z", none, 0⟩

def c8Older : TicketRow :=
  ⟨"t8", "Older", "First ticket", "Other", "closed", "2024-01-01T00:00:00.000Z", none, 1⟩

/-- Witness for C8 at a concrete two-element snapshot sorted newest-first
(descending in the lexicographic order on the timestamps' characters, which on
these ISO timestamps is chronological order). -/
theorem tickets_rendered_newest_first_witness :
    fetchTicketsQuery.orderBy = "created_at" ∧
    fetchTicketsQuery.ascending = false ∧
    (renderTicketList [c8Newer, c8Older]).map TicketCard.created_at =
      [c8Newer, c8Older].map TicketRow.created_at ∧
    (renderTicketList [c8Newer, c8Older]).Pairwise fun a b =>
      b.created_at.data < a.created_at.data :=
  tickets_rendered_newest_first [c8Newer, c8Older] (fun a b => b.data < a.data) (by decide)

/-- C9 counterexample: the category fallback is not applied for every string
outside Account/Orders/Other — at `"toString"` the lookup `colors[category]`
yields the truthy member inherited from `Object.prototype`, so the badge's
`className` is that member, not the gray fallback. -/
theorem getCategoryBadge_prototype_key_not_gray :
    getCategoryBadge "toString" ≠
      ⟨BadgeVariant.default, some (JsValue.str "bg-gray-500 text-white"), "toString"⟩ := by
  decide

/-- C9 (amended): badge rendering is total over arbitrary field values — any
status other than `"open"`/`"closed"` gets the outline badge showing the raw
status, and any category outside Account/Orders/Other that is not the name of
an `Object.prototype` member gets the gray fallback badge showing the raw
category (for prototype-member names such as `"toString"` the truthy inherited
member is used as the `className` instead of the fallback). -/
theorem badge_fallbacks_total (status category : String)
    (hs1 : status ≠ "open") (hs2 : status ≠ "closed")
    (hc1 : category ≠ "Account") (hc2 : category ≠ "Orders") (hc3 : category ≠ "Other")
    (hproto : category ∉ objectPrototypeKeys) :
    getStatusBadge status = ⟨BadgeVariant.outline, none, status⟩ ∧
    getCategoryBadge category =
      ⟨BadgeVariant.default, some (JsValue.str "bg-gray-500 text-white"), category⟩ := by
  constructor
  · simp [getStatusBadge, hs1, hs2]
  · simp [getCategoryBadge, categoryColors, jsOrValue, JsValue.truthy,
      hc1, hc2, hc3, hproto]

/-- Witness for C9 at status `"pending"` and category `"Billing"`. -/
theorem badge_fallbacks_total_witness :
    getStatusBadge "pending" = ⟨BadgeVariant.outline, none, "pending"⟩ ∧
    getCategoryBadge "Billing" =
      ⟨BadgeVariant.default, some (JsValue.str "bg-gray-500 text-white"), "Billing"⟩ :=
  badge_fallbacks_total "pending" "Billing"
    (by decide) (by decide) (by decide) (by decide) (by decide) (by decide)

/-- C10: a failed product fetch shows no toast and keeps the previous product
list, and a valid submission without a product still succeeds (success toast,
refresh callback) — the dialog stays usable. -/
theorem products_fetch_failure_silent (prev : List Product) (e : String)
    (form : FormState) (env : SubmitEnv) (u : AuthUser)
    (htitle : jsTrim form.title ≠ "") (hdesc : jsTrim form.description ≠ "")
    (hcat : form.category ≠ "") (hprod : form.productId = "")
    (huser : env.user = some u) (hok : env.insertResult = Except.ok ()) :
    fetchProducts prev (Except.error e) = (prev, []) ∧
    (handleSubmit form env).toasts = [successToast] ∧
    (handleSubmit form env).refreshCalls = 1 := by
  refine ⟨rfl, ?_, ?_⟩ <;>
    · unfold handleSubmit
      rw [if_neg (by tauto), huser, hok]

/-- Witness for C10 at a concrete failed product fetch and a productless valid
submission. -/
theorem products_fetch_failure_silent_witness :
    fetchProducts [⟨"p1", "Widget"⟩] (Except.error "timeout") = ([⟨"p1", "Widget"⟩], []) ∧
    (handleSubmit c6Form sampleEnvOk).toasts = [successToast] ∧
    (handleSubmit c6Form sampleEnvOk).refreshCalls = 1 :=
  products_fetch_failure_silent [⟨"p1", "Widget"⟩] "timeout" c6Form sampleEnvOk sampleUser
    (by decide) (by decide) (by decide) rfl rfl rfl

end BotforgeServices
